import Mathlib

/-!
Verification of the attiny-controller power orchestrator (`src/main.go`)
against its natural-language specification.

Conventions of the embedding:
* Go timestamps and durations are modelled as `Int` (nanoseconds, as in
  Go's `time` package); `time.Time\x7b\x7d` (the zero time) is the constant 0,
  and "now" at a given call site is an explicit parameter.
* Go `byte` values are `Nat` with explicit `% 256` where Go truncates;
  Go `int` is `Int`, and Go's `byte(n)` conversion is `(n % 256).toNat`
  (Go truncation of two's complement agrees with the Euclidean mod).
* Fallible collaborator calls (config parsing, bus transactions, the
  external poweroff command) are oracles: an `Env` record holds the result
  each call site would observe, and `runMain` is a pure function of it.
* The observable behaviour of a run is a trace of `Event`s (log lines,
  bus operations, sleeps, the OS-shutdown invocation) plus the returned
  `Except` value, mirroring the Go control flow line by line.
-/

set_option maxRecDepth 4096

deriving instance DecidableEq for Except

namespace AttinyController

/-- Go `time.Minute` in nanoseconds. -/
def minute : Int := 60000000000

/-- `fromBCD` (src/main.go lines 174-176):
`int(b&0x0F) + int(b>>4)*10` for a byte `b`. -/
def fromBCD (b : Nat) : Int :=
  Int.ofNat (b &&& 0x0F) + Int.ofNat (b >>> 4) * 10

/-- `toBCD` (src/main.go lines 198-201): `byte(n)/10<<4 + byte(n)%10`,
all arithmetic in Go `byte` (mod 256); `byte(n)` truncates the `int`
argument to its low 8 bits. -/
def toBCD (n : Int) : Nat :=
  let b : Nat := (n % 256).toNat
  (b / 10 * 16 % 256 + b % 10) % 256

/-- The two package-level deadline variables (src/main.go lines 43-49).
`saltCommandWaitEnd` is the maintenance-pause deadline of the spec. -/
structure DeadlineState where
  stayOnUntil : Int
  saltCommandWaitEnd : Int
  deriving DecidableEq, Repr

/-- Initialization of the deadline variables at process start
(src/main.go lines 46-48): `stayOnUntil = time.Now()` and
`saltCommandWaitEnd = time.Time\x7b\x7d` (the zero time, modelled as 0). -/
def initDeadlineState (now : Int) : DeadlineState :=
  { stayOnUntil := now, saltCommandWaitEnd := 0 }

/-- Which deadline an extension request targets (spec 4.4). -/
inductive DeadlineKind where
  | stayOn
  | maintenancePause
  deriving DecidableEq, Repr

/-- Modelled from the spec: the `Extend` operation of the Shared Deadline
State ("sets the named field to `max(current, newDeadline)`").  The
extension handler is not part of src/main.go (the spec places it in an
external inter-process service); only the variables it mutates are. -/
def Extend (k : DeadlineKind) (newDeadline : Int) (d : DeadlineState) :
    DeadlineState :=
  match k with
  | .stayOn => { d with stayOnUntil := max d.stayOnUntil newDeadline }
  | .maintenancePause =>
      { d with saltCommandWaitEnd := max d.saltCommandWaitEnd newDeadline }

/-- Modelled from the spec: the resumable-wait target the spec prescribes
for `AwaitWindow`: `max(window.NextEnd(), deadlines.stayOnUntil,
deadlines.maintenancePauseUntil)`.  Stated only to be compared with what
the code actually does. -/
def specAwaitTarget (nextEnd : Int) (d : DeadlineState) : Int :=
  max nextEnd (max d.stayOnUntil d.saltCommandWaitEnd)

/-- Command-line arguments (src/main.go lines 51-56), handed to the run
already parsed.  `skipSystemShutdown` corresponds to the
`--skip-system-shutdown` flag whose help text reads: do not shut down
the operating system when powering down. -/
structure Args where
  configDir : String
  skipWait : Bool
  timestamps : Bool
  skipSystemShutdown : Bool
  deriving DecidableEq, Repr

/-- The schedule query interface `conf.OnWindow` (external collaborator):
`Active()`, `NextStart()`, `NextEnd()`.  The code queries it at fixed
points; one snapshot per run suffices for those call sites. -/
structure OnWindow where
  active : Bool
  nextStart : Int
  nextEnd : Int
  deriving DecidableEq, Repr

/-- The slice of the parsed configuration that `runMain` reads. -/
structure Config where
  onWindow : OnWindow
  deriving DecidableEq, Repr

/-- Observable events of one run of `runMain`, in program order:
log lines, bus operations toward the RTC and the power MCU, sleeps
(with their duration), and the OS-shutdown invocation.  `logFailure`
is the event a log line recording an operation failure would emit;
the source of `runMain` contains no such log call, so the embedding
never produces it. -/
inductive Event where
  | log (s : String)
  | startWatchdogTask
  | readCameraState
  | logCameraState (c : Nat)
  | clearAlarmFlag
  | getTime
  | setAlarmTime (t : Int)
  | setAlarmEnabled (b : Bool)
  | sleep (d : Int)
  | poweringOff
  | osShutdown
  | logFailure (s : String)
  deriving DecidableEq, Repr

/-- Is this event a `sleep`? -/
def Event.isSleep : Event → Bool
  | .sleep _ => true
  | _ => false

/-- Is this event a log line recording a failure? -/
def Event.isLogFailure : Event → Bool
  | .logFailure _ => true
  | _ => false

/-- The oracle environment of one run: the result each fallible call
site observes, plus "now" at the two `time.Until` call sites of the
window wait (src/main.go lines 154-155).  Fields of the form
`readCamNNN` are the `attiny.ReadCameraState()` calls at source line
NNN; on success they carry the freshly decoded camera state. -/
structure Env where
  args : Args
  parseConfig : Except String Config
  connect : Except String Unit
  initRTC : Except String Unit
  readCam113 : Except String Nat
  clearAlarmFlag : Except String Unit
  getTime : Except String Int
  setAlarmTime : Except String Unit
  setAlarmEnabled : Except String Unit
  readCam143 : Except String Nat
  readCam159 : Except String Nat
  readCam163 : Except String Nat
  readCam168 : Except String Nat
  poweringOff : Except String Unit
  poweroffCmd : Except (String × String) String
  now154 : Int
  now155 : Int
  deriving Repr

/-- `shutdown` (src/main.go lines 209-216): run `/sbin/poweroff` and, on
failure, return an error carrying the error and the command's combined
output (`fmt.Errorf("poweroff failed: %v\n%s", err, output)`).  The
oracle result carries `(err, output)` on the error side. -/
def shutdown (cmdResult : Except (String × String) String) :
    Except String Unit :=
  match cmdResult with
  | .ok _ => .ok ()
  | .error (e, out) => .error ("poweroff failed: " ++ e ++ "\n" ++ out)

/-- `runMain` (src/main.go lines 79-172), embedded line by line as a pure
function from the oracle environment to the returned `Except` value and
the trace of events.  The camera-state cache `attiny.CameraState` is
threaded through and updated only by successful reads; the error results
of the calls at lines 143, 159, 163 and 168 and of `shutdown()` at line
170 are discarded, exactly as in the source. -/
def runMain (env : Env) : Except String Unit × List Event :=
  let t : List Event := [.log "running version"]
  match env.parseConfig with
  | .error e => (.error e, t)
  | .ok conf =>
  let t := t ++ [.log "Connecting to ATtiny1616"]
  match env.connect with
  | .error e => (.error e, t)
  | .ok _ =>
  let t := t ++ [.log "Setting up WDT pinging", .startWatchdogTask,
                 .log "Connecting to RTC"]
  match env.initRTC with
  | .error e => (.error e, t)
  | .ok _ =>
  let t := t ++ [.readCameraState]
  match env.readCam113 with
  | .error e => (.error e, t)
  | .ok cam =>
  let t := t ++ [.clearAlarmFlag]
  match env.clearAlarmFlag with
  | .error e => (.error e, t)
  | .ok _ =>
  let t := t ++ [.getTime]
  match env.getTime with
  | .error e => (.error e, t)
  | .ok _rtcTime =>
  let t := t ++ [.log "RTC time"]
  let alarmTime := conf.onWindow.nextStart
  let t := t ++ [.log "Alarm time", .setAlarmTime alarmTime]
  match env.setAlarmTime with
  | .error e => (.error e, t)
  | .ok _ =>
  let t := t ++ [.setAlarmEnabled true]
  match env.setAlarmEnabled with
  | .error e => (.error e, t)
  | .ok _ =>
  let cam := match env.readCam143 with | .ok c => c | .error _ => cam
  let t := t ++ [.readCameraState, .logCameraState cam]
  let t :=
    if env.args.skipWait then
      t ++ [.log "Not waiting initial grace period."]
    else
      t ++ [.log "Waiting 20 minutes before checking for power off.",
            .sleep (20 * minute)]
  let tc :=
    if conf.onWindow.active ∨ conf.onWindow.nextStart - env.now154 < 2 * minute then
      let t := t ++ [.log "Sleeping until turning off",
                     .sleep (conf.onWindow.nextEnd - env.now155),
                     .log "Finished waiting for power off"]
      let cam := match env.readCam159 with | .ok c => c | .error _ => cam
      (t ++ [.readCameraState, .logCameraState cam], cam)
    else (t, cam)
  let t := tc.1
  let cam := tc.2
  let cam := match env.readCam163 with | .ok c => c | .error _ => cam
  let t := t ++ [.readCameraState, .logCameraState cam]
  let t := t ++ [.poweringOff]
  match env.poweringOff with
  | .error e => (.error e, t)
  | .ok _ =>
  let cam := match env.readCam168 with | .ok c => c | .error _ => cam
  let t := t ++ [.readCameraState, .logCameraState cam]
  let t := t ++ [.osShutdown]
  let _ := shutdown env.poweroffCmd
  (.ok (), t)

/-- `main` (src/main.go lines 70-77) calls `log.Fatal` exactly when
`runMain` returns an error: the process exits with a non-zero outcome
iff this is `true`. -/
def mainFatal (env : Env) : Bool :=
  match (runMain env).fst with
  | .ok _ => false
  | .error _ => true

/-- The events of a run that happen strictly before the first wait: the
longest prefix of the trace containing no `sleep`. -/
def preWaitTrace (env : Env) : List Event :=
  (runMain env).snd.takeWhile (fun e => !e.isSleep)

/-- A configuration whose window is currently open, ending 100ns from
now. -/
def confWin : Config :=
  { onWindow := { active := true, nextStart := 50, nextEnd := 100 } }

/-- A configuration whose window is closed, with its next start 10
minutes away. -/
def confSkip : Config :=
  { onWindow := { active := false, nextStart := 10 * minute,
                  nextEnd := 20 * minute } }

/-- A run in which every collaborator call succeeds, the initial grace
period is skipped, and the window is currently open with its end 100ns
away. -/
def envWin : Env :=
  { args := { configDir := "/etc/cacophony", skipWait := true,
              timestamps := false, skipSystemShutdown := false },
    parseConfig := .ok confWin,
    connect := .ok (), initRTC := .ok (), readCam113 := .ok 1,
    clearAlarmFlag := .ok (), getTime := .ok 7, setAlarmTime := .ok (),
    setAlarmEnabled := .ok (), readCam143 := .ok 2, readCam159 := .ok 3,
    readCam163 := .ok 4, readCam168 := .ok 5, poweringOff := .ok (),
    poweroffCmd := .ok "", now154 := 0, now155 := 0 }

/-- Like `envWin`, but the window is closed and its next start is 10
minutes away. -/
def envSkipWin : Env :=
  { envWin with parseConfig := .ok confSkip }

/-- Like `envWin`, but every diagnostic `ReadCameraState` call (source
lines 143, 159, 163, 168) fails, and the poweroff command fails too. -/
def envSilent : Env :=
  { envWin with
    readCam143 := .error "i2c read failed",
    readCam159 := .error "i2c read failed",
    readCam163 := .error "i2c read failed",
    readCam168 := .error "i2c read failed",
    poweroffCmd := .error ("exit status 1", "poweroff: permission denied") }

/-- Like `envWin`, but with the `--skip-system-shutdown` flag set. -/
def envSkipShutdown : Env :=
  { envWin with
    args := { configDir := "/etc/cacophony", skipWait := true,
              timestamps := false, skipSystemShutdown := true } }

/-- Like `envWin`, but the `/sbin/poweroff` command fails. -/
def envPoweroffFail : Env :=
  { envWin with
    poweroffCmd := .error ("exit status 1", "Failed to power off") }

/- Helper: the BCD round trip checked over the byte-sized domain. -/
theorem fromBCD_toBCD_ofNat :
    ∀ m : Nat, m < 100 → fromBCD (toBCD (Int.ofNat m)) = Int.ofNat m := by
  decide

/-- Claim C6: for every integer `n` in `[0, 99]`,
`fromBCD (toBCD n) = n`. -/
theorem fromBCD_toBCD_roundtrip (n : Int) (h0 : 0 ≤ n) (h99 : n ≤ 99) :
    fromBCD (toBCD n) = n := by
  have hm : n = Int.ofNat n.toNat := (Int.toNat_of_nonneg h0).symm
  have hlt : n.toNat < 100 := by omega
  rw [hm]
  exact fromBCD_toBCD_ofNat n.toNat hlt

/-- Witness for C6 at `n = 42`. -/
theorem fromBCD_toBCD_roundtrip_witness :
    0 ≤ (42 : Int) ∧ (42 : Int) ≤ 99 ∧ fromBCD (toBCD 42) = 42 :=
  ⟨by decide, by decide, fromBCD_toBCD_roundtrip 42 (by decide) (by decide)⟩

/-- Claim C8 counterexample: the byte `0xFF` is mapped by `fromBCD` to
`165`, which is not in `[0, 99]`, refuting "for every input byte `b`,
`fromBCD b` is in `[0, 99]`". -/
theorem fromBCD_range_counterexample :
    fromBCD 255 = 165 ∧ ¬ fromBCD 255 ≤ 99 := by
  decide

/-- Claim C8 (amended): for every byte `b` whose low and high nibbles are
each at most 9 (every valid BCD encoding), `fromBCD b` is in `[0, 99]`. -/
theorem fromBCD_range (b : Nat) (hb : b < 256)
    (hlo : b &&& 0x0F ≤ 9) (hhi : b >>> 4 ≤ 9) :
    0 ≤ fromBCD b ∧ fromBCD b ≤ 99 := by
  revert hlo hhi
  revert b
  decide

/-- Witness for amended C8 at `b = 0x99`. -/
theorem fromBCD_range_witness :
    153 < 256 ∧ 153 &&& 0x0F ≤ 9 ∧ 153 >>> 4 ≤ 9 ∧
      (0 ≤ fromBCD 153 ∧ fromBCD 153 ≤ 99) :=
  ⟨by decide, by decide, by decide,
    fromBCD_range 153 (by decide) (by decide) (by decide)⟩

/-- Claim C10: for every byte `b` whose low and high nibbles are each at
most 9 (every valid BCD encoding), `toBCD (fromBCD b) = b`. -/
theorem toBCD_fromBCD_roundtrip (b : Nat) (hb : b < 256)
    (hlo : b &&& 0x0F ≤ 9) (hhi : b >>> 4 ≤ 9) :
    toBCD (fromBCD b) = b := by
  revert hlo hhi
  revert b
  decide

/-- Witness for C10 at `b = 0x59`. -/
theorem toBCD_fromBCD_roundtrip_witness :
    89 < 256 ∧ 89 &&& 0x0F ≤ 9 ∧ 89 >>> 4 ≤ 9 ∧ toBCD (fromBCD 89) = 89 :=
  ⟨by decide, by decide, by decide,
    toBCD_fromBCD_roundtrip 89 (by decide) (by decide) (by decide)⟩

/-- Claim C7 counterexample: at process start with `now = 1`, the
maintenance-pause deadline (`saltCommandWaitEnd`) is the zero time, not
`now`, refuting "both fields are initialized to the current time". -/
theorem initDeadlineState_counterexample :
    (initDeadlineState 1).saltCommandWaitEnd = 0 ∧
      ¬ (initDeadlineState 1).saltCommandWaitEnd = 1 := by
  decide

/-- Claim C7 (amended): at process start, `stayOnUntil` is initialized to
the current time and `saltCommandWaitEnd` (the maintenance-pause
deadline) is initialized to the zero time. -/
theorem initDeadlineState_fields (now : Int) :
    (initDeadlineState now).stayOnUntil = now ∧
      (initDeadlineState now).saltCommandWaitEnd = 0 :=
  ⟨rfl, rfl⟩

/-- Claim C2: whenever the schedule reports `Active() = false` and
`NextStart()` is at least 2 minutes away, the run performs no window wait
at all — the only possible sleep in the whole trace is the initial grace
period — and proceeds directly to the shutdown steps (`PoweringOff` and
the OS-shutdown invocation). -/
theorem awaitWindow_skip (env : Env) (conf : Config) (c113 : Nat) (tR : Int)
    (hconf : env.parseConfig = .ok conf)
    (hconn : env.connect = .ok ())
    (hrtc : env.initRTC = .ok ())
    (hr113 : env.readCam113 = .ok c113)
    (hclr : env.clearAlarmFlag = .ok ())
    (hgt : env.getTime = .ok tR)
    (hsat : env.setAlarmTime = .ok ())
    (hsae : env.setAlarmEnabled = .ok ())
    (hpo : env.poweringOff = .ok ())
    (hact : conf.onWindow.active = false)
    (himm : 2 * minute ≤ conf.onWindow.nextStart - env.now154) :
    (runMain env).snd.filter Event.isSleep
      = (if env.args.skipWait then [] else [Event.sleep (20 * minute)]) ∧
    Event.poweringOff ∈ (runMain env).snd ∧
    Event.osShutdown ∈ (runMain env).snd := by
  have hcond : ¬(conf.onWindow.active = true ∨
      conf.onWindow.nextStart - env.now154 < 2 * minute) := by
    push_neg
    exact ⟨by simp [hact], by omega⟩
  cases hsw : env.args.skipWait <;>
    simp [runMain, hconf, hconn, hrtc, hr113, hclr, hgt, hsat, hsae, hpo,
          hsw, hcond, Event.isSleep, List.filter]

/-- Witness for C2: in `envSkipWin` the window is closed, its next start
is 10 minutes away, and the run's trace has no sleep at all while still
reaching `PoweringOff` and the OS-shutdown invocation. -/
theorem awaitWindow_skip_witness :
    envSkipWin.parseConfig = .ok confSkip ∧
    confSkip.onWindow.active = false ∧
    2 * minute ≤ confSkip.onWindow.nextStart - envSkipWin.now154 ∧
    ((runMain envSkipWin).snd.filter Event.isSleep
       = (if envSkipWin.args.skipWait then [] else [Event.sleep (20 * minute)]) ∧
     Event.poweringOff ∈ (runMain envSkipWin).snd ∧
     Event.osShutdown ∈ (runMain envSkipWin).snd) :=
  ⟨by decide, by decide, by decide,
   awaitWindow_skip envSkipWin confSkip 1 7 (by decide) (by decide) (by decide)
     (by decide) (by decide) (by decide) (by decide) (by decide) (by decide)
     (by decide) (by decide)⟩

/-- Claim C1 counterexample: in `envWin` the window is open with
`NextEnd() - now = 100`, and an `Extend(StayOn, 1000)` has raised the
shared deadline state, so the spec's prescribed wait target is 1000; yet
the run performs exactly one uninterruptible window sleep of duration
100 — `runMain` never consults the deadline state, so the effective wait
target stays 100, not 1000, and there is no poll loop to observe the
extension. -/
theorem awaitWindow_not_resumable_counterexample :
    (runMain envWin).snd.filter Event.isSleep = [Event.sleep 100] ∧
    specAwaitTarget confWin.onWindow.nextEnd
      (Extend .stayOn 1000 (initDeadlineState 0)) = 1000 ∧
    ¬ (100 : Int) = 1000 := by
  decide

/-- Claim C1 (amended): when the window is open or starts within 2
minutes, the AwaitWindow wait is a single sleep of duration
`NextEnd() - now`, computed once at entry; `runMain` takes no
deadline-state input, so an `Extend` arriving mid-wait cannot lengthen
the wait. -/
theorem awaitWindow_single_sleep (env : Env) (conf : Config) (c113 : Nat) (tR : Int)
    (hconf : env.parseConfig = .ok conf)
    (hconn : env.connect = .ok ())
    (hrtc : env.initRTC = .ok ())
    (hr113 : env.readCam113 = .ok c113)
    (hclr : env.clearAlarmFlag = .ok ())
    (hgt : env.getTime = .ok tR)
    (hsat : env.setAlarmTime = .ok ())
    (hsae : env.setAlarmEnabled = .ok ())
    (hpo : env.poweringOff = .ok ())
    (hwin : conf.onWindow.active = true ∨
            conf.onWindow.nextStart - env.now154 < 2 * minute) :
    (runMain env).snd.filter Event.isSleep
      = (if env.args.skipWait then [] else [Event.sleep (20 * minute)])
        ++ [Event.sleep (conf.onWindow.nextEnd - env.now155)] := by
  cases hsw : env.args.skipWait <;>
    simp [runMain, hconf, hconn, hrtc, hr113, hclr, hgt, hsat, hsae, hpo,
          hsw, hwin, Event.isSleep, List.filter]

/-- Witness for amended C1: in `envWin` the window is open and the whole
trace contains exactly one sleep, of duration `NextEnd() - now = 100`. -/
theorem awaitWindow_single_sleep_witness :
    envWin.parseConfig = .ok confWin ∧
    (confWin.onWindow.active = true ∨
       confWin.onWindow.nextStart - envWin.now154 < 2 * minute) ∧
    (runMain envWin).snd.filter Event.isSleep
      = (if envWin.args.skipWait then [] else [Event.sleep (20 * minute)])
        ++ [Event.sleep (confWin.onWindow.nextEnd - envWin.now155)] :=
  ⟨by decide, Or.inl (by decide),
   awaitWindow_single_sleep envWin confWin 1 7 (by decide) (by decide)
     (by decide) (by decide) (by decide) (by decide) (by decide) (by decide)
     (by decide) (Or.inl (by decide))⟩

/-- Claim C5: in every successful run, `ClearAlarmFlag()` is invoked and
the alarm is programmed (`SetAlarmTime` with the window's next start)
and enabled (`SetAlarmEnabled true`) strictly before any wait: all three
events lie in the sleep-free prefix of the trace. -/
theorem alarm_programmed_before_wait (env : Env) (conf : Config)
    (hconf : env.parseConfig = .ok conf)
    (hok : (runMain env).fst = .ok ()) :
    Event.clearAlarmFlag ∈ preWaitTrace env ∧
    Event.setAlarmTime conf.onWindow.nextStart ∈ preWaitTrace env ∧
    Event.setAlarmEnabled true ∈ preWaitTrace env := by
  rcases hconn : env.connect with e | _
  · simp [runMain, hconf, hconn] at hok
  rcases hrtc : env.initRTC with e | _
  · simp [runMain, hconf, hconn, hrtc] at hok
  rcases hr113 : env.readCam113 with e | c113
  · simp [runMain, hconf, hconn, hrtc, hr113] at hok
  rcases hclr : env.clearAlarmFlag with e | _
  · simp [runMain, hconf, hconn, hrtc, hr113, hclr] at hok
  rcases hgt : env.getTime with e | tR
  · simp [runMain, hconf, hconn, hrtc, hr113, hclr, hgt] at hok
  rcases hsat : env.setAlarmTime with e | _
  · simp [runMain, hconf, hconn, hrtc, hr113, hclr, hgt, hsat] at hok
  rcases hsae : env.setAlarmEnabled with e | _
  · simp [runMain, hconf, hconn, hrtc, hr113, hclr, hgt, hsat, hsae] at hok
  rcases hpo : env.poweringOff with e | _
  · simp [runMain, hconf, hconn, hrtc, hr113, hclr, hgt, hsat, hsae, hpo] at hok
  by_cases hwin : (conf.onWindow.active = true ∨
      conf.onWindow.nextStart - env.now154 < 2 * minute) <;>
    cases hsw : env.args.skipWait <;>
      simp [preWaitTrace, runMain, hconf, hconn, hrtc, hr113, hclr, hgt,
            hsat, hsae, hpo, hsw, hwin, Event.isSleep, List.takeWhile]

/-- Witness for C5 at the successful run `envWin`. -/
theorem alarm_programmed_before_wait_witness :
    envWin.parseConfig = .ok confWin ∧
    (runMain envWin).fst = .ok () ∧
    (Event.clearAlarmFlag ∈ preWaitTrace envWin ∧
     Event.setAlarmTime confWin.onWindow.nextStart ∈ preWaitTrace envWin ∧
     Event.setAlarmEnabled true ∈ preWaitTrace envWin) :=
  ⟨by decide, by decide,
   alarm_programmed_before_wait envWin confWin (by decide) (by decide)⟩

/-- Claim C9 (amended): once the propagated operations (config parse,
connect, RTC init, the first `ReadCameraState`, `ClearAlarmFlag`,
`GetTime`, `SetAlarmTime`, `SetAlarmEnabled`, `PoweringOff`) succeed,
the run returns success whatever the diagnostic `ReadCameraState` calls
(lines 143, 159, 163, 168) and the poweroff command return — their
errors are discarded — and the trace never contains a log line that
records a failure. -/
theorem failures_not_logged (env : Env) (conf : Config) (c113 : Nat) (tR : Int)
    (hconf : env.parseConfig = .ok conf)
    (hconn : env.connect = .ok ())
    (hrtc : env.initRTC = .ok ())
    (hr113 : env.readCam113 = .ok c113)
    (hclr : env.clearAlarmFlag = .ok ())
    (hgt : env.getTime = .ok tR)
    (hsat : env.setAlarmTime = .ok ())
    (hsae : env.setAlarmEnabled = .ok ())
    (hpo : env.poweringOff = .ok ()) :
    (runMain env).fst = .ok () ∧
    (runMain env).snd.filter Event.isLogFailure = [] := by
  by_cases hwin : (conf.onWindow.active = true ∨
      conf.onWindow.nextStart - env.now154 < 2 * minute) <;>
    cases hsw : env.args.skipWait <;>
      simp [runMain, hconf, hconn, hrtc, hr113, hclr, hgt, hsat, hsae, hpo,
            hsw, hwin, Event.isLogFailure, List.filter]

/-- Witness for amended C9 at `envSilent`, where all four diagnostic
reads and the poweroff command fail. -/
theorem failures_not_logged_witness :
    envSilent.parseConfig = .ok confWin ∧
    envSilent.poweringOff = .ok () ∧
    ((runMain envSilent).fst = .ok () ∧
     (runMain envSilent).snd.filter Event.isLogFailure = []) :=
  ⟨by decide, by decide,
   failures_not_logged envSilent confWin 1 7 (by decide) (by decide)
     (by decide) (by decide) (by decide) (by decide) (by decide) (by decide)
     (by decide)⟩

/-- Claim C9 counterexample: in `envSilent` the diagnostic
`ReadCameraState` at line 143 (and at 159, 163, 168) fails and the
poweroff command fails, yet the run returns success — so those errors
are not propagated — and no log line recording a failure appears in the
trace: the failures are silently swallowed. -/
theorem failures_swallowed_counterexample :
    envSilent.readCam143 = .error "i2c read failed" ∧
    envSilent.poweroffCmd
      = .error ("exit status 1", "poweroff: permission denied") ∧
    (runMain envSilent).fst = .ok () ∧
    (runMain envSilent).snd.filter Event.isLogFailure = [] := by
  decide

/-- Claim C3: the `--skip-system-shutdown` option is parsed but never
consulted — in `envSkipShutdown` the flag is set, `PoweringOff`
succeeds, and the run still performs the OS-shutdown invocation. -/
theorem skip_system_shutdown_ignored :
    envSkipShutdown.args.skipSystemShutdown = true ∧
    envSkipShutdown.poweringOff = .ok () ∧
    Event.osShutdown ∈ (runMain envSkipShutdown).snd ∧
    (runMain envSkipShutdown).fst = .ok () := by
  decide

/-- Claim C4: `shutdown` does return an error carrying the poweroff
command's captured output, but `runMain` discards that error at its only
call site: with a failing `/sbin/poweroff`, the run still returns
success and `main` does not terminate the process with a non-zero
outcome. -/
theorem shutdown_error_swallowed :
    envPoweroffFail.poweroffCmd
      = .error ("exit status 1", "Failed to power off") ∧
    shutdown envPoweroffFail.poweroffCmd
      = .error "poweroff failed: exit status 1\nFailed to power off" ∧
    (runMain envPoweroffFail).fst = .ok () ∧
    mainFatal envPoweroffFail = false := by
  decide

end AttinyController
